import Mathlib

/-!
Verification of the c2rust build/transpile orchestration scripts
(`scripts/transpile.py` and `scripts/build_ast_extractor.py`).

The Python code is shallowly embedded: strings are `List Char`, the
filesystem and external tools are oracles passed as function parameters,
and every way the scripts can terminate abnormally is an `Err` value in
an `Except Err` result.  `Err.die` models the scripts' own `die`
helper (a logged fatal error plus `quit(ecode)`); the other constructors
model uncaught Python exceptions (which terminate the process with exit
status 1 and a traceback rather than a controlled diagnostic).
-/

/-- Abnormal terminations of the scripts.  `die msg code` is the scripts'
controlled fatal path (`die` logs `error: msg` and quits with `code`);
the remaining constructors model uncaught Python exceptions. -/
inductive Err where
  | die (msg : List Char) (code : Int)
  | assertionError (msg : List Char)
  | nameError
  | keyError
  | indexError
  | valueError
  deriving DecidableEq

deriving instance DecidableEq for Except

/-- Characters accepted by the regex class `\s` (ASCII whitespace). -/
def isWs (c : Char) : Bool :=
  c = ' ' || c = '\t' || c = '\n' || c = '\r' || c = '\x0b' || c = '\x0c'

/-- Characters accepted by the regex class `\w` (ASCII word characters). -/
def isWordChar (c : Char) : Bool :=
  c.isAlphanum || c = '_'

/-- Character of `s` at index `i`, with NUL when out of range (NUL is
neither whitespace nor `-`/`o`, so out-of-range probes fail all guards). -/
def chAt (s : List Char) (i : Nat) : Char :=
  s.getD i (Char.ofNat 0)

/-- Length of the maximal whitespace run of `s` starting at index `i`. -/
def wsRunLen (s : List Char) (i : Nat) : Nat :=
  ((s.drop i).takeWhile isWs).length

/-- Largest `k` with `lo ≤ k ≤ hi` satisfying `p`, scanning downward. -/
def downFind (p : Nat → Bool) (lo : Nat) : Nat → Option Nat
  | 0 => if lo = 0 && p 0 then some 0 else none
  | k + 1 => if lo ≤ k + 1 && p (k + 1) then some (k + 1) else downFind p lo k

/-- First `some` value of `f` on `hi, hi-1, ..., lo`, scanning downward. -/
def downFindSome (f : Nat → Option (List Char)) (lo : Nat) : Nat → Option (List Char)
  | 0 => if lo = 0 then f 0 else none
  | k + 1 => if lo ≤ k + 1 then (f (k + 1)) <|> downFindSome f lo k else none

/-- Can the capture group `([^\0]+\.o)` of `\s-o\s+([^\0]+\.o)\s` end just
before index `k`, for a group starting at index `j`?  Requires the group to
span at least three characters, end in `.o`, contain no NUL, and be
followed by one whitespace character (which must exist within `s`). -/
def groupOk (s : List Char) (j k : Nat) : Bool :=
  j + 3 ≤ k && k + 1 ≤ s.length && isWs (chAt s k)
    && (chAt s (k - 2) == '.') && (chAt s (k - 1) == 'o')
    && ((s.drop j).take (k - j)).all (fun c => c ≠ Char.ofNat 0)

/-- Greedy capture for a group starting at `j`: the longest `[^\0]+\.o`
followed by whitespace (regex `+`/classes are greedy, so backtracking
yields the largest feasible end index). -/
def tryGroup (s : List Char) (j : Nat) : Option (List Char) :=
  (downFind (groupOk s j) (j + 3) (s.length - 1)).map
    (fun k => (s.drop j).take (k - j))

/-- Attempt to match `\s-o\s+([^\0]+\.o)\s` at start index `i` of `s`,
returning the capture group.  `\s+` is greedy, so larger group start
indices are tried first. -/
def matchAt (s : List Char) (i : Nat) : Option (List Char) :=
  if isWs (chAt s i) && (chAt s (i + 1) == '-') && (chAt s (i + 2) == 'o') then
    let run := wsRunLen s (i + 3)
    if run = 0 then none
    else downFindSome (fun j => tryGroup s j) (i + 4) (i + 3 + run)
  else none

/-- `re.search(r"\s-o\s+([^\0]+\.o)\s", command)`: leftmost match wins;
returns the capture group (`transpile.py` line 47). -/
def reSearchDashO (s : List Char) : Option (List Char) :=
  (List.range s.length).findSome? (matchAt s)

/-- `os.path.join(a, b)` on POSIX: an absolute `b` replaces `a`; otherwise
`b` is appended, inserting `/` unless `a` is empty or ends in `/`. -/
def pathJoin (a b : List Char) : List Char :=
  if b.head? == some '/' then b
  else if a.isEmpty then b
  else if a.getLast? == some '/' then a ++ b
  else a ++ '/' :: b

/-- Worker for `replaceAll`: when `skip` is positive the current
character belongs to an occurrence already replaced and is dropped. -/
def replaceAllAux (pat rep : List Char) : Nat → List Char → List Char
  | _, [] => []
  | skip + 1, _ :: rest => replaceAllAux pat rep skip rest
  | 0, c :: rest =>
    if pat.isPrefixOf (c :: rest) then
      rep ++ replaceAllAux pat rep (pat.length - 1) rest
    else
      c :: replaceAllAux pat rep 0 rest

/-- Python `str.replace(pat, rep)`: replace every non-overlapping
occurrence of `pat`, scanning left to right. -/
def replaceAll (pat rep s : List Char) : List Char :=
  replaceAllAux pat rep 0 s

/-- Python's substring test `needle in hay`. -/
def containsSub (hay needle : List Char) : Bool :=
  hay.tails.any (fun t => needle.isPrefixOf t)

/-- One entry of `compile_commands.json`: a JSON object that may carry
`arguments`, `command`, `directory` and `file` keys (`None` models an
absent key, whose access raises `KeyError`). -/
structure Entry where
  arguments : Option (List (List Char))
  command : Option (List Char)
  directory : Option (List Char)
  file : Option (List Char)
  deriving DecidableEq

/-- Fatal-diagnostic text used for entries missing `arguments`/`command`
or `directory` (the script appends a JSON dump of the entry, which is
not needed by any claim and is omitted from the model). -/
def malformedEntryMsg : List Char :=
  "malformed entry in compile_commands.json:\n".data

/-- Path computation of `try_locate_elf_object` (`transpile.py` lines
31-54): join the `-o` capture against the entry directory, else replace
`.c` with `.o` (every occurrence — Python `str.replace`) in the joined
input path.  Dies on entries missing `arguments`/`command` or
`directory`; raises `KeyError` when the fallback needs a missing `file`. -/
def locate_path (cmd : Entry) : Except Err (List Char) :=
  match (match cmd.arguments with
         | some args => Except.ok (List.intercalate " ".data args)
         | none =>
           match cmd.command with
           | some c => Except.ok c
           | none => Except.error (Err.die malformedEntryMsg 1)) with
  | Except.error e => Except.error e
  | Except.ok command =>
    match cmd.directory with
    | none => Except.error (Err.die malformedEntryMsg 1)
    | some dir =>
      match reSearchDashO command with
      | some outfile => Except.ok (pathJoin dir outfile)
      | none =>
        match cmd.file with
        | none => Except.error Err.keyError
        | some f => Except.ok (replaceAll ".c".data ".o".data (pathJoin dir f))

/-- `try_locate_elf_object` (`transpile.py` lines 31-62): the computed
path if it exists on disk (`isf` is the `os.path.isfile` oracle),
otherwise `none`. -/
def try_locate_elf_object (isf : List Char → Bool) (cmd : Entry) :
    Except Err (Option (List Char)) :=
  match locate_path cmd with
  | Except.error e => Except.error e
  | Except.ok p => Except.ok (if isf p then some p else none)

/-- The C-file pre-filter of `ensure_code_compiled_with_clang`
(`transpile.py` line 67): keep entries whose `file` ends in `.c`;
an entry without a `file` key raises `KeyError`. -/
def cFilter : List Entry → Except Err (List Entry)
  | [] => Except.ok []
  | c :: rest =>
    match c.file with
    | none => Except.error Err.keyError
    | some f =>
      match cFilter rest with
      | Except.error e => Except.error e
      | Except.ok r =>
        Except.ok (if ".c".data.isSuffixOf f then c :: r else r)

/-- The object-location comprehension of `ensure_code_compiled_with_clang`
(`transpile.py` line 72), left to right, aborting at the first fatal
entry. -/
def mapLocate (isf : List Char → Bool) : List Entry → Except Err (List (Option (List Char)))
  | [] => Except.ok []
  | c :: rest =>
    match try_locate_elf_object isf c with
    | Except.error e => Except.error e
    | Except.ok o =>
      match mapLocate isf rest with
      | Except.error e => Except.error e
      | Except.ok os => Except.ok (o :: os)

/-- `ensure_code_compiled_with_clang` (`transpile.py` lines 65-82).
`isf` is the `os.path.isfile` oracle; `readelfC` maps an object path to
the text of its `.comment` section as printed by
`readelf -p .comment` (an external tool, assumed to succeed on located
objects).  Note the source joins the paths of `comment_sections` — all
located objects — into the diagnostic, although it computed
`non_clang_files` on the line above. -/
def ensure_code_compiled_with_clang (isf : List Char → Bool)
    (readelfC : List Char → List Char) (cc_db : List Entry) : Except Err Unit :=
  match cFilter cc_db with
  | Except.error e => Except.error e
  | Except.ok c_cc_db =>
    if c_cc_db.isEmpty then
      Except.error (Err.die "didn't find any commands compling C files".data 1)
    else
      match mapLocate isf c_cc_db with
      | Except.error e => Except.error e
      | Except.ok obj_files =>
        let comment_sections := (obj_files.filterMap id).map (fun f => (f, readelfC f))
        let non_clang_files := comment_sections.filter
          (fun fc => ! containsSub fc.2 "clang".data)
        if non_clang_files.isEmpty then Except.ok ()
        else
          Except.error (Err.die
            ("some ELF objects were not compiled with clang:\n".data
              ++ List.intercalate "\n".data (comment_sections.map Prod.fst)) 1)

/-- The filter step of `transpile_files` (`transpile.py` lines 95-96):
`cc_db = [c for c in cc_db if args.filter in f['file']]`.  The name `f`
is unbound in that scope, so evaluating the condition on the first
entry raises `NameError`; entries are filtered only when the filter
string is empty (falsy) or the database is empty. -/
def filterStep (filt : List Char) (cc_db : List Entry) : Except Err (List Entry) :=
  if filt.isEmpty then Except.ok cc_db
  else
    match cc_db with
    | [] => Except.ok []
    | _ :: _ => Except.error Err.nameError

/-- `plumbum`'s `BoundCommand.run()` with its default `retcode=0`:
returns the `(retcode, stdout, stderr)` triple on exit status 0 and
raises `ProcessExecutionError` (modelled as the `(retcode, stderr)`
pair) otherwise.  The scripts rely on this default everywhere except
`check_sig`, which passes `retcode=None` explicitly. -/
def pbRun (rc : Int) (out err : List Char) :
    Except (Int × List Char) (Int × List Char × List Char) :=
  if rc = 0 then Except.ok (rc, out, err) else Except.error (rc, err)

/-- `invoke_quietly` / `_invoke` (`build_ast_extractor.py` lines 95-115):
runs the command, and on `ProcessExecutionError` calls
`die(msg, pee.retcode)` — so a non-zero exit of the invoked tool is a
controlled fatal error carrying the tool's exit code. -/
def invoke_quietly (rc : Int) (out err : List Char) :
    Except Err (Int × List Char × List Char) :=
  match pbRun rc out err with
  | Except.ok t => Except.ok t
  | Except.error pee =>
    Except.error (Err.die ("cmd exited with code ".data ++ (toString pee.1).data) pee.1)

/-- `transpile_single` (`transpile.py` lines 101-113).  `io` is
`args.import_only`; `exo` is the `extract_ast_from` outcome oracle (an
external-tool invocation with its own fatal paths); `isf` is
`os.path.isfile`; `imp` gives the ast-importer's
`(retcode, stdout, stderr)` for a cbor path.  The captured import
`retcode` is never inspected afterwards, but `invoke_quietly` itself
has already died if it was non-zero. -/
def transpile_single (io : Bool) (exo : Entry → Except Err (List Char))
    (isf : List Char → Bool) (imp : List Char → Int × List Char × List Char)
    (cmd : Entry) : Except Err Unit :=
  match (if io then
           match cmd.directory, cmd.file with
           | some d, some f => Except.ok (pathJoin d (f ++ ".cbor".data))
           | _, _ => Except.error Err.keyError
         else exo cmd) with
  | Except.error e => Except.error e
  | Except.ok cbor_file =>
    if isf cbor_file then
      match invoke_quietly (imp cbor_file).1 (imp cbor_file).2.1 (imp cbor_file).2.2 with
      | Except.error e => Except.error e
      | Except.ok _ => Except.ok ()
    else
      Except.error (Err.assertionError ("missing: ".data ++ cbor_file))

/-- The sequential loop of `transpile_files` (`transpile.py` lines
115-117): jobs run in order in the main thread, so the first exception
propagates and aborts the process. -/
def seqForM (job : Entry → Except Err Unit) : List Entry → Except Err Unit
  | [] => Except.ok ()
  | c :: rest =>
    match job c with
    | Except.error e => Except.error e
    | Except.ok _ => seqForM job rest

/-- The futures created by `executor.submit` in the thread-pool branch
(`transpile.py` lines 122-124): each stores its job's outcome, and no
caller ever reads them. -/
def poolFutures (job : Entry → Except Err Unit) (cc_db : List Entry) :
    List (Except Err Unit) :=
  cc_db.map job

/-- The scheduling branch of `transpile_files` (`transpile.py` lines
115-124).  With `jobs == 1` the loop runs in the main thread and any
exception aborts the run.  Otherwise a `ThreadPoolExecutor(jobs)` is
used: exceptions (including the `SystemExit` raised by `die`) are
caught by the worker and stored in the unread futures (`poolFutures`),
so the scheduler itself always succeeds; `ThreadPoolExecutor(0)`
raises `ValueError`. -/
def schedule (job : Entry → Except Err Unit) (jobs : Nat) (cc_db : List Entry) :
    Except Err Unit :=
  if jobs = 1 then seqForM job cc_db
  else if jobs = 0 then Except.error Err.valueError
  else Except.ok ()

/-- `transpile_files` (`transpile.py` lines 85-124), after the
compilation database has been parsed from JSON: filter step, the
clang-provenance gate, then the per-entry job pipeline. -/
def transpile_files (isf : List Char → Bool) (readelfC : List Char → List Char)
    (imp : List Char → Int × List Char × List Char)
    (exo : Entry → Except Err (List Char)) (filt : List Char) (io : Bool)
    (jobs : Nat) (cc_db : List Entry) : Except Err Unit :=
  match filterStep filt cc_db with
  | Except.error e => Except.error e
  | Except.ok cc_db' =>
    match ensure_code_compiled_with_clang isf readelfC cc_db' with
    | Except.error e => Except.error e
    | Except.ok _ => schedule (transpile_single io exo isf imp) jobs cc_db'

/-- Process exit status of a completed run: 0 on success (`main` just
logs and returns), the `die` code on a controlled fatal error
(`quit(ecode)`), and 1 for an uncaught exception. -/
def processExit : Except Err Unit → Int
  | Except.ok _ => 0
  | Except.error (Err.die _ c) => c
  | Except.error _ => 1

/-- Exit status of `main` (`transpile.py` lines 145-152) for a parsed
database and the given oracles. -/
def mainExit (isf : List Char → Bool) (readelfC : List Char → List Char)
    (imp : List Char → Int × List Char × List Char)
    (exo : Entry → Except Err (List Char)) (filt : List Char) (io : Bool)
    (jobs : Nat) (cc_db : List Entry) : Int :=
  processExit (transpile_files isf readelfC imp exo filt io jobs cc_db)

/-- Worker for `splitKE`; `acc` holds the current (reversed) partial
line. -/
def splitKEAux : List Char → List Char → List (List Char)
  | acc, [] => if acc.isEmpty then [] else [acc.reverse]
  | acc, c :: cs =>
    if c = '\n' then
      (acc.reverse ++ ['\n']) :: splitKEAux [] cs
    else
      splitKEAux (c :: acc) cs

/-- Python `file.readlines()` on the given content: split into lines,
each keeping its trailing newline; a final line without a newline is
kept as-is; empty content yields no lines. -/
def splitKE (s : List Char) : List (List Char) :=
  splitKEAux [] s

/-- The fixed generator signature expected as the first line of
`build.ninja` (`build_ast_extractor.py` line 196; `os.linesep` is
`"\n"` on the POSIX hosts the script targets). -/
def ninjaSignatureLine : List Char :=
  "# CMAKE generated file: DO NOT EDIT!\n".data

/-- `re.match(r'^#\s*Configuration:\s*(\w+)', line)`: anchored at the
start of the line; returns the `\w+` capture.  `\s` and `\w` are
disjoint, so the greedy scan needs no backtracking. -/
def markerMatch (l : List Char) : Option (List Char) :=
  match l with
  | '#' :: rest =>
    let rest1 := rest.dropWhile isWs
    if "Configuration:".data.isPrefixOf rest1 then
      let rest2 := (rest1.drop 14).dropWhile isWs
      let w := rest2.takeWhile isWordChar
      if w.isEmpty then none else some w
    else none
  | _ => none

/-- `get_ninja_build_type` (`build_ast_extractor.py` lines 195-207),
applied to the content of an existing `build.ninja` at `path`: check
the generator-signature first line, then return the first
configuration-marker capture.  On empty content, `lines[0]` raises an
uncontrolled `IndexError`. -/
def get_ninja_build_type (path content : List Char) : Except Err (List Char) :=
  match splitKE content with
  | [] => Except.error Err.indexError
  | l0 :: rest =>
    if l0 = ninjaSignatureLine then
      match (l0 :: rest).findSome? markerMatch with
      | some ty => Except.ok ty
      | none => Except.error (Err.die ("missing content in ninja.build: ".data ++ path) 1)
    else
      Except.error (Err.die ("unexpected content in ninja.build: ".data ++ path) 1)

/-- Is the outcome the scripts' controlled fatal path (`die`), as
opposed to success or an uncaught exception? -/
def isControlledDie {α : Type} : Except Err α → Bool
  | Except.error (Err.die _ _) => true
  | _ => false

/-- The requested build flavor (`build_ast_extractor.py` line 215). -/
def buildTypeOf (debug : Bool) : List Char :=
  if debug then "Debug".data else "Release".data

/-- The cmake-reconfiguration decision of `configure_and_build_llvm`
(`build_ast_extractor.py` lines 210-237): returns how many times cmake
is invoked (0 or 1).  `ninjaContent` is the content of
`<LLVM_BLD>/build.ninja` at `path`, or `none` when the file does not
exist.  The unconditional `ninja ast-extractor` build that follows is
an external invocation not needed by any claim. -/
def configure_and_build_llvm (debug : Bool) (path : List Char)
    (ninjaContent : Option (List Char)) : Except Err Nat :=
  match ninjaContent with
  | none => Except.ok 1
  | some content =>
    match get_ninja_build_type path content with
    | Except.error e => Except.error e
    | Except.ok prev_build_type =>
      Except.ok (if prev_build_type = buildTypeOf debug then 0 else 1)

/-- The expected-signer line searched for in gpg's stderr
(`build_ast_extractor.py` line 137). -/
def expectedSigner : List Char :=
  "Good signature from \"Tom Stellard <tom@stellard.net>\"".data

/-- `check_sig` (`build_ast_extractor.py` lines 128-145), given the
verification tool's exit status and stderr text (the preceding
`--recv-key` exchange is an external invocation assumed to succeed):
`gpg --verify` runs with `retcode=None`, then a non-zero exit status
dies, then a missing expected-signer substring dies. -/
def check_sig (rc : Int) (stderr : List Char) : Except Err Unit :=
  if rc ≠ 0 then
    Except.error (Err.die
      ("gpg signature check failed: gpg exit code ".data ++ (toString rc).data) 1)
  else if ! containsSub stderr expectedSigner then
    Except.error (Err.die "gpg signature check failed: expected signature not found".data 1)
  else
    Except.ok ()

/-- `CMAKELISTS_COMMANDS` (`build_ast_extractor.py` lines 60-65), with
`CBOR_PREFIX` (a path derived from the install location at runtime)
as the parameter `pfx`. -/
def CMAKELISTS_COMMANDS (pfx : List Char) : List Char :=
  "\ninclude_directories(".data ++ pfx ++ "/include)\nlink_directories(".data
    ++ pfx ++ "/lib)\nadd_subdirectory(ast-extractor)\n".data

/-- The at-most-once indicator searched for by `update_cmakelists`
(`build_ast_extractor.py` line 262). -/
def cmakeIndicator : List Char :=
  "add_subdirectory(ast-extractor)".data

/-- `update_cmakelists` (`build_ast_extractor.py` lines 259-272),
returning the resulting file content: dies (`errno.ENOENT`) when the
file at `path` is missing, appends `CMAKELISTS_COMMANDS` when no line
of the file contains the indicator, and leaves the file unchanged
otherwise. -/
def update_cmakelists (pfx path : List Char) :
    Option (List Char) → Except Err (List Char)
  | none => Except.error (Err.die ("not found: ".data ++ path) 2)
  | some content =>
    let add_commands := ! (splitKE content).any (fun l => containsSub l cmakeIndicator)
    if add_commands then Except.ok (content ++ CMAKELISTS_COMMANDS pfx)
    else Except.ok content

/-- One tuple of the download loop's `zip` (`build_ast_extractor.py`
lines 154-158): archive URL, signature URL, local archive path and
unpack directory name. -/
structure ArchiveSpec where
  aurl : List Char
  asig : List Char
  afile : List Char
  adir : List Char
  deriving DecidableEq

/-- External effects the download loop of `download_llvm_sources` can
perform for one archive. -/
inductive FetchAction where
  | download (url dest : List Char)
  | downloadSig (url dest : List Char)
  | verify (afile asigfile : List Char)
  deriving DecidableEq

/-- One iteration of the download loop (`build_ast_extractor.py` lines
154-173), as the list of effects it performs.  A cached archive
(`os.path.isfile(afile)`) makes the iteration `continue` with no
effect at all.  Otherwise the archive is downloaded; the signature is
downloaded unless `os.path.isfile(asig)` — note the source probes the
signature URL, not the local signature path, so this probe is false on
any real host — and `check_sig` runs on the fresh archive. -/
def fetchActions (isf : List Char → Bool) (s : ArchiveSpec) : List FetchAction :=
  if isf s.afile then []
  else
    FetchAction.download s.aurl s.afile ::
      ((if isf s.asig then [] else [FetchAction.downloadSig s.asig (s.afile ++ ".sig".data)])
        ++ [FetchAction.verify s.afile (s.afile ++ ".sig".data)])

/-- The effect trace of the download loop of `download_llvm_sources`
(`build_ast_extractor.py` lines 148-173) over the zipped archive
specifications.  The extraction stage that follows the loop performs
no downloads and no signature checks and is outside every claim. -/
def download_llvm_sources (isf : List Char → Bool) (specs : List ArchiveSpec) :
    List FetchAction :=
  specs.flatMap (fetchActions isf)

/-! Concrete fixtures used by witnesses and counterexamples. -/

/-- Fixture: a well-formed entry compiling `a.c` in directory `d`. -/
def eC1a : Entry := ⟨none, some "cc -c a.c".data, some "d".data, some "a.c".data⟩

/-- Fixture: a well-formed entry compiling `b.c` in directory `d`. -/
def eC1b : Entry := ⟨none, some "cc -c b.c".data, some "d".data, some "b.c".data⟩

/-- Fixture: a well-formed entry compiling `x.c` in directory `d`. -/
def eC1x : Entry := ⟨none, some "cc -c x.c".data, some "d".data, some "x.c".data⟩

/-- Fixture filesystem: only the extraction artifacts of `a.c` and `b.c`
exist — `x.c`'s artifact is missing, so its job fails its assertion. -/
def isfC1 : List Char → Bool :=
  fun p => (p == "d/a.c.cbor".data) || (p == "d/b.c.cbor".data)

/-- Fixture readelf oracle: every object's comment names clang. -/
def rdClang : List Char → List Char := fun _ => "clang".data

/-- Fixture importer oracle: the conversion tool always exits 0. -/
def impOk : List Char → Int × List Char × List Char := fun _ => (0, [], [])

/-- Fixture extraction oracle (unused under `--import-only`). -/
def exoOk : Entry → Except Err (List Char) := fun _ => Except.ok []

/-- Fixture filesystem for the import-exit-status run: only `a.c`'s
artifact exists. -/
def isfC3 : List Char → Bool := fun p => p == "d/a.c.cbor".data

/-- Fixture importer oracle: the conversion tool always exits 1. -/
def impFail : List Char → Int × List Char × List Char := fun _ => (1, [], [])

/-- Fixture entry whose object `d/ok.o` was compiled with clang. -/
def eC5ok : Entry := ⟨none, some "cc -c ok.c".data, some "d".data, some "ok.c".data⟩

/-- Fixture entry whose object `d/bad.o` was not compiled with clang. -/
def eC5bad : Entry := ⟨none, some "cc -c bad.c".data, some "d".data, some "bad.c".data⟩

/-- Fixture filesystem: both located objects exist. -/
def isfC5 : List Char → Bool :=
  fun p => (p == "d/ok.o".data) || (p == "d/bad.o".data)

/-- Fixture readelf oracle: `d/ok.o` carries the clang marker,
`d/bad.o` does not. -/
def rdC5 : List Char → List Char :=
  fun p => if p == "d/ok.o".data then "clang version 4.0.1".data
           else "GCC: (GNU) 7.3.0".data

/-- Fixture `build.ninja` content recording flavor `Release`. -/
def relContent : List Char :=
  "# CMAKE generated file: DO NOT EDIT!\n# Configuration: Release\n".data

/-- Fixture filesystem for the download loop: only archive `A` is
cached. -/
def isfC10 : List Char → Bool := fun p => p == "A".data

/-- Fixture archive specification for the cached archive `A`. -/
def specA : ArchiveSpec := ⟨"uA".data, "sA".data, "A".data, "dA".data⟩

/-- Fixture archive specification for the uncached archive `B`. -/
def specB : ArchiveSpec := ⟨"uB".data, "sB".data, "B".data, "dB".data⟩

/-! Helper lemmas. -/

/-- The sequential loop succeeds exactly when every job succeeds. -/
theorem seqForM_ok_iff (job : Entry → Except Err Unit) (db : List Entry) :
    seqForM job db = Except.ok () ↔ ∀ x ∈ db, job x = Except.ok () := by
  induction db with
  | nil => simp [seqForM]
  | cons c rest ih =>
    cases hc : job c with
    | error e => simp [seqForM, hc]
    | ok u => cases u; simp [seqForM, hc, ih]

/-- The sequential loop aborts with the first failing job's error. -/
theorem seqForM_append_error (job : Entry → Except Err Unit) (pre : List Entry)
    (e : Entry) (post : List Entry) (err : Err)
    (hpre : ∀ x ∈ pre, job x = Except.ok ()) (he : job e = Except.error err) :
    seqForM job (pre ++ e :: post) = Except.error err := by
  induction pre with
  | nil => simp [seqForM, he]
  | cons c rest ih =>
    have hc : job c = Except.ok () := hpre c (List.mem_cons_self c rest)
    simp only [List.cons_append, seqForM, hc]
    exact ih (fun x hx => hpre x (List.mem_cons_of_mem c hx))

/-- `findSome?` over a list on which `f` is never `some`. -/
theorem findSomeNone (f : List Char → Option (List Char)) (ls : List (List Char))
    (h : ∀ l ∈ ls, f l = none) : ls.findSome? f = none := by
  induction ls with
  | nil => simp [List.findSome?]
  | cons c rest ih =>
    have hc := h c (List.mem_cons_self c rest)
    simp [List.findSome?, hc, ih (fun x hx => h x (List.mem_cons_of_mem c hx))]

/-- Replacement of a pattern starting with `c0` passes over any text
avoiding `c0`. -/
theorem replaceAllAux_skip (p rep d t : List Char) (c0 : Char)
    (hd : ∀ ch ∈ d, ch ≠ c0) :
    replaceAllAux (c0 :: p) rep 0 (d ++ t) = d ++ replaceAllAux (c0 :: p) rep 0 t := by
  induction d with
  | nil => simp
  | cons c rest ih =>
    have hc : c ≠ c0 := hd c (List.mem_cons_self c rest)
    have hne : ¬ ((c0 :: p).isPrefixOf (c :: (rest ++ t)) = true) := by
      simp [List.isPrefixOf]
      intro hcc
      exact absurd hcc.symm hc
    simp only [List.cons_append, replaceAllAux]
    split_ifs with h
    · exact absurd h hne
    · exact congrArg (c :: ·) (ih (fun x hx => hd x (List.mem_cons_of_mem c hx)))

/-- Splitting text that contains a newline: everything after the first
newline is split independently of what came before. -/
theorem splitKEAux_append_newline (u : List Char) :
    ∀ (acc rest : List Char), ∃ pre,
      splitKEAux acc (u ++ '\n' :: rest) = pre ++ splitKEAux [] rest := by
  induction u with
  | nil =>
    intro acc rest
    exact ⟨[acc.reverse ++ ['\n']], by simp [splitKEAux]⟩
  | cons c u ih =>
    intro acc rest
    by_cases hc : c = '\n'
    · subst hc
      obtain ⟨pre, hpre⟩ := ih [] rest
      exact ⟨(acc.reverse ++ ['\n']) :: pre, by simp [splitKEAux, hpre]⟩
    · obtain ⟨pre, hpre⟩ := ih (c :: acc) rest
      exact ⟨pre, by simp [splitKEAux, hc, hpre]⟩

/-- After appending `CMAKELISTS_COMMANDS`, some line of the file
contains the indicator, whatever the file held before and whatever the
install-prefix path is. -/
theorem cmake_block_has_indicator (pfx c : List Char) :
    ((splitKE (c ++ CMAKELISTS_COMMANDS pfx)).any
      (fun l => containsSub l cmakeIndicator)) = true := by
  have hA : "\ninclude_directories(".data
      = '\n' :: "include_directories(".data := by decide
  have hB : "/include)\nlink_directories(".data
      = "/include)".data ++ '\n' :: "link_directories(".data := by decide
  have hC : "/lib)\nadd_subdirectory(ast-extractor)\n".data
      = "/lib)".data ++ '\n' :: "add_subdirectory(ast-extractor)\n".data := by decide
  have heq0 : c ++ CMAKELISTS_COMMANDS pfx
      = c ++ '\n' :: (("include_directories(".data ++ (pfx ++ "/include)".data))
          ++ '\n' :: (("link_directories(".data ++ (pfx ++ "/lib)".data))
          ++ '\n' :: "add_subdirectory(ast-extractor)\n".data)) := by
    simp only [CMAKELISTS_COMMANDS, hA, hB, hC, List.append_assoc, List.cons_append,
      List.nil_append]
  rw [splitKE, heq0]
  obtain ⟨p1, h1⟩ := splitKEAux_append_newline c []
    (("include_directories(".data ++ (pfx ++ "/include)".data))
      ++ '\n' :: (("link_directories(".data ++ (pfx ++ "/lib)".data))
      ++ '\n' :: "add_subdirectory(ast-extractor)\n".data))
  rw [h1]
  obtain ⟨p2, h2⟩ := splitKEAux_append_newline
    ("include_directories(".data ++ (pfx ++ "/include)".data)) []
    (("link_directories(".data ++ (pfx ++ "/lib)".data))
      ++ '\n' :: "add_subdirectory(ast-extractor)\n".data)
  rw [h2]
  obtain ⟨p3, h3⟩ := splitKEAux_append_newline
    ("link_directories(".data ++ (pfx ++ "/lib)".data)) []
    "add_subdirectory(ast-extractor)\n".data
  rw [h3]
  have hlast : splitKEAux [] "add_subdirectory(ast-extractor)\n".data
      = ["add_subdirectory(ast-extractor)\n".data] := by decide
  rw [hlast]
  simp only [List.any_append, List.any_cons, List.any_nil]
  have : containsSub "add_subdirectory(ast-extractor)\n".data cmakeIndicator = true := by
    decide
  simp [this]

/-! Claim theorems. -/

/-- C9: `update_cmakelists` applies its patch at most once — whatever a
first run on any file content produced, a second run leaves the file
unchanged, for every install prefix: the appended block itself holds a
line containing the indicator. -/
theorem C9_confirmed (pfx path c c2 : List Char)
    (h : update_cmakelists pfx path (some c) = Except.ok c2) :
    update_cmakelists pfx path (some c2) = Except.ok c2 := by
  unfold update_cmakelists at h ⊢
  by_cases hany : ((splitKE c).any (fun l => containsSub l cmakeIndicator)) = true
  · have hc2 : c = c2 := by simpa [hany] using h
    subst hc2
    simp [hany]
  · have hfalse : ((splitKE c).any (fun l => containsSub l cmakeIndicator)) = false :=
      Bool.eq_false_iff.mpr hany
    have hc2 : c ++ CMAKELISTS_COMMANDS pfx = c2 := by simpa [hfalse] using h
    subst hc2
    simp [cmake_block_has_indicator]

/-- C9 witness: patching an empty file appends the block once, and
patching the result changes nothing. -/
theorem C9_witness :
    update_cmakelists "P".data "f".data (some [])
        = Except.ok (CMAKELISTS_COMMANDS "P".data)
      ∧ update_cmakelists "P".data "f".data (some (CMAKELISTS_COMMANDS "P".data))
        = Except.ok (CMAKELISTS_COMMANDS "P".data) :=
  ⟨by decide, C9_confirmed "P".data "f".data [] (CMAKELISTS_COMMANDS "P".data) (by decide)⟩

/-- Replacing `.c` by `.o` in a joined path whose directory part avoids
`.` turns `<dir>/foo.c` into `<dir>/foo.o`. -/
theorem replaceAll_join_foo (d : List Char) (hd : ∀ ch ∈ d, ch ≠ '.') :
    replaceAll ".c".data ".o".data (pathJoin d "foo.c".data)
      = pathJoin d "foo.o".data := by
  by_cases hde : d.isEmpty = true
  · have hnil : d = [] := List.isEmpty_iff.mp hde
    subst hnil
    decide
  · have hpj : ∀ b : List Char, (b.head? == some '/') = false →
        pathJoin d b = if (d.getLast? == some '/') = true then d ++ b else d ++ '/' :: b := by
      intro b hb
      unfold pathJoin
      rw [hb]
      simp only [Bool.false_eq_true, if_false]
      rw [if_neg hde]
    rw [hpj _ (by decide), hpj _ (by decide)]
    by_cases hl : (d.getLast? == some '/') = true
    · rw [if_pos hl, if_pos hl]
      exact (replaceAllAux_skip "c".data ".o".data d "foo.c".data '.' hd).trans
        (congrArg (d ++ ·) (by decide))
    · rw [if_neg hl, if_neg hl]
      exact (replaceAllAux_skip "c".data ".o".data d ('/' :: "foo.c".data) '.' hd).trans
        (congrArg (d ++ ·) (by decide))

/-- C4 counterexample: the claim's `-o` example fails when the fragment
sits at the end of the command text — the regex `\s-o\s+([^\0]+\.o)\s`
demands a whitespace character after the captured path, so the entry
`{directory: "/d", file: "foo.c", command: "cc -c foo.c -o build/out.o"}`
falls through to suffix substitution and yields `/d/foo.o`, not
`/d/build/out.o`. -/
theorem C4_counterexample :
    locate_path ⟨none, some "cc -c foo.c -o build/out.o".data,
        some "/d".data, some "foo.c".data⟩ = Except.ok "/d/foo.o".data
      ∧ "/d/foo.o".data ≠ "/d/build/out.o".data := by
  constructor
  · decide
  · decide

/-- C4 amended: the `-o <path>.o` fragment is recognized only when
delimited by whitespace on both sides (one whitespace character must
follow the `.o` path); such a command yields the captured path joined
against the entry directory, and a command with no such fragment falls
back to replacing the `.c` suffix of the joined input path by `.o`
(shown for the spec's `foo.c` example over every directory whose name
avoids `.`, since the fallback replaces every `.c` occurrence). -/
theorem C4_amended (d : List Char) (hd : ∀ ch ∈ d, ch ≠ '.') :
    locate_path ⟨none, some "cc -c foo.c -o build/out.o ".data, some d,
        some "foo.c".data⟩ = Except.ok (pathJoin d "build/out.o".data)
      ∧ locate_path ⟨none, some "cc -c foo.c".data, some d,
        some "foo.c".data⟩ = Except.ok (pathJoin d "foo.o".data) := by
  constructor
  · show (match reSearchDashO "cc -c foo.c -o build/out.o ".data with
      | some outfile => Except.ok (pathJoin d outfile)
      | none => Except.ok (replaceAll ".c".data ".o".data (pathJoin d "foo.c".data)))
      = Except.ok (pathJoin d "build/out.o".data)
    rw [show reSearchDashO "cc -c foo.c -o build/out.o ".data
      = some "build/out.o".data from by decide]
  · show (match reSearchDashO "cc -c foo.c".data with
      | some outfile => Except.ok (pathJoin d outfile)
      | none => Except.ok (replaceAll ".c".data ".o".data (pathJoin d "foo.c".data)))
      = Except.ok (pathJoin d "foo.o".data)
    rw [show reSearchDashO "cc -c foo.c".data = none from by decide]
    exact congrArg Except.ok (replaceAll_join_foo d hd)

/-- C4 witness: the amended behaviour at directory `/tmp/x`. -/
theorem C4_witness :
    locate_path ⟨none, some "cc -c foo.c -o build/out.o ".data, some "/tmp/x".data,
        some "foo.c".data⟩ = Except.ok "/tmp/x/build/out.o".data
      ∧ locate_path ⟨none, some "cc -c foo.c".data, some "/tmp/x".data,
        some "foo.c".data⟩ = Except.ok "/tmp/x/foo.o".data := by
  have h := C4_amended "/tmp/x".data (by decide)
  exact ⟨h.1, h.2⟩

/-- C6: `configure_and_build_llvm` invokes cmake exactly once when no
`build.ninja` exists or when the flavor recovered from it differs from
the requested one, and zero times when they agree. -/
theorem C6_confirmed (dbg : Bool) (path content ty : List Char) :
    (get_ninja_build_type path content = Except.ok ty →
      ((configure_and_build_llvm dbg path (some content) = Except.ok 1
          ↔ ty ≠ buildTypeOf dbg)
        ∧ (configure_and_build_llvm dbg path (some content) = Except.ok 0
          ↔ ty = buildTypeOf dbg)))
    ∧ configure_and_build_llvm dbg path none = Except.ok 1 := by
  constructor
  · intro h
    have hgoal : configure_and_build_llvm dbg path (some content)
        = Except.ok (if ty = buildTypeOf dbg then (0 : Nat) else 1) := by
      show (match get_ninja_build_type path content with
            | Except.error e => Except.error e
            | Except.ok prev_build_type =>
              Except.ok (if prev_build_type = buildTypeOf dbg then (0 : Nat) else 1))
          = Except.ok (if ty = buildTypeOf dbg then (0 : Nat) else 1)
      rw [h]
    rw [hgoal]
    by_cases hty : ty = buildTypeOf dbg
    · simp [hty]
    · simp [hty]
  · rfl

/-- C6 witness: a file recording `Release` triggers one reconfiguration
for a `Debug` run and none for a `Release` run. -/
theorem C6_witness :
    configure_and_build_llvm true "b".data (some relContent) = Except.ok 1
      ∧ configure_and_build_llvm false "b".data (some relContent) = Except.ok 0 :=
  ⟨((C6_confirmed true "b".data relContent "Release".data).1 (by decide)).1.mpr (by decide),
   ((C6_confirmed false "b".data relContent "Release".data).1 (by decide)).2.mpr (by decide)⟩

/-- C7: `check_sig` succeeds exactly when gpg exited 0 and its stderr
contains the expected signer identity; either failure alone is fatal —
in particular exit 0 with the substring missing still fails. -/
theorem C7_confirmed (rc : Int) (stderr : List Char) :
    check_sig rc stderr = Except.ok ()
      ↔ (rc = 0 ∧ containsSub stderr expectedSigner = true) := by
  unfold check_sig
  by_cases h : rc = 0
  · subst h
    simp only [ne_eq, not_true_eq_false, if_false, reduceIte]
    cases hc : containsSub stderr expectedSigner <;> simp [hc]
  · simp [h]

/-- C8 counterexample: on an existing but empty `build.ninja`,
`get_ninja_build_type` raises an uncontrolled `IndexError`
(`lines[0]`), not the controlled `die` diagnostic the claim requires
for every malformed content including the empty file. -/
theorem C8_counterexample :
    get_ninja_build_type "b".data [] = Except.error Err.indexError
      ∧ isControlledDie (get_ninja_build_type "b".data []) = false := by
  constructor
  · decide
  · decide

/-- C8 amended: for every existing `build.ninja` with at least one line
whose content is malformed — first line not the generator signature, or
no line matching the configuration marker — `get_ninja_build_type`
terminates with the controlled fatal diagnostic; only the empty file
falls outside this and crashes with `IndexError`. -/
theorem C8_amended (path content l0 : List Char) (ls : List (List Char))
    (hsplit : splitKE content = l0 :: ls)
    (hmal : l0 ≠ ninjaSignatureLine ∨ ∀ l ∈ l0 :: ls, markerMatch l = none) :
    isControlledDie (get_ninja_build_type path content) = true := by
  have hgoal : get_ninja_build_type path content
      = (if l0 = ninjaSignatureLine then
          match List.findSome? markerMatch (l0 :: ls) with
          | some ty => Except.ok ty
          | none => Except.error (Err.die ("missing content in ninja.build: ".data ++ path) 1)
        else Except.error (Err.die ("unexpected content in ninja.build: ".data ++ path) 1)) := by
    unfold get_ninja_build_type
    rw [hsplit]
  by_cases hs : l0 = ninjaSignatureLine
  · rcases hmal with hne | hnone
    · exact absurd hs hne
    · rw [hgoal, if_pos hs, findSomeNone markerMatch (l0 :: ls) hnone]
      rfl
  · rw [hgoal, if_neg hs]
    rfl

/-- C8 witness: a non-empty file with a bogus first line dies in a
controlled way. -/
theorem C8_witness :
    isControlledDie (get_ninja_build_type "b".data "bogus\n".data) = true :=
  C8_amended "b".data "bogus\n".data "bogus\n".data [] (by decide) (Or.inl (by decide))

/-- C10: an archive already cached on disk produces no download, no
signature download and no verification — its loop iteration is empty —
and every verification in the loop's trace belongs to an archive that
was not cached, i.e. was freshly downloaded in the same invocation. -/
theorem C10_confirmed (isf : List Char → Bool) (specs : List ArchiveSpec)
    (s : ArchiveSpec) (f g : List Char) :
    (isf s.afile = true → fetchActions isf s = [])
    ∧ (FetchAction.verify f g ∈ download_llvm_sources isf specs →
        ∃ t, t ∈ specs ∧ f = t.afile ∧ isf t.afile = false) := by
  constructor
  · intro h
    unfold fetchActions
    rw [if_pos h]
  · intro h
    unfold download_llvm_sources at h
    rw [List.mem_flatMap] at h
    obtain ⟨t, ht, ha⟩ := h
    by_cases hc : isf t.afile = true
    · unfold fetchActions at ha
      rw [if_pos hc] at ha
      exact absurd ha (List.not_mem_nil _)
    · have hfalse : isf t.afile = false := Bool.eq_false_iff.mpr hc
      unfold fetchActions at ha
      rw [if_neg hc] at ha
      have hf : f = t.afile := by
        rcases List.mem_cons.mp ha with h1 | h1
        · exact absurd h1 (by simp)
        · rcases List.mem_append.mp h1 with h2 | h2
          · by_cases hsig : isf t.asig = true
            · rw [if_pos hsig] at h2
              exact absurd h2 (List.not_mem_nil _)
            · rw [if_neg hsig] at h2
              have h3 := List.mem_singleton.mp h2
              exact absurd h3 (by simp)
          · have h3 := List.mem_singleton.mp h2
            injection h3 with hf2 hg2
      exact ⟨t, ht, hf, hfalse⟩

/-- C10 witness: with archive `A` cached and `B` missing, `A`'s
iteration is empty and the single verification belongs to the freshly
downloaded `B`. -/
theorem C10_witness :
    fetchActions isfC10 specA = []
      ∧ ∃ t, t ∈ [specA, specB] ∧ "B".data = t.afile ∧ isfC10 t.afile = false :=
  ⟨(C10_confirmed isfC10 [specA, specB] specA "B".data "B.sig".data).1 (by decide),
   (C10_confirmed isfC10 [specA, specB] specA "B".data "B.sig".data).2 (by decide)⟩

/-- C1 amended: only the sequential mode (`jobs == 1`) is fail-fast —
there, a failing job aborts the scheduler with its error, and the
scheduler succeeds exactly when every entry's pipeline succeeds.  In
thread-pool mode (`jobs` not 0 or 1) every job's exception is captured
in an unread future, so the scheduler always returns success and the
process exits 0 regardless of per-job failures. -/
theorem C1_corrected (io : Bool) (exo : Entry → Except Err (List Char))
    (isf : List Char → Bool) (imp : List Char → Int × List Char × List Char)
    (db pre post : List Entry) (e : Entry) (err : Err) (j : Nat) :
    ((∀ x ∈ pre, transpile_single io exo isf imp x = Except.ok ()) →
      transpile_single io exo isf imp e = Except.error err →
      schedule (transpile_single io exo isf imp) 1 (pre ++ e :: post) = Except.error err)
    ∧ (schedule (transpile_single io exo isf imp) 1 db = Except.ok ()
        ↔ ∀ x ∈ db, transpile_single io exo isf imp x = Except.ok ())
    ∧ (j ≠ 1 → j ≠ 0 → schedule (transpile_single io exo isf imp) j db = Except.ok ()) := by
  refine ⟨?_, ?_, ?_⟩
  · intro hpre he
    show seqForM (transpile_single io exo isf imp) (pre ++ e :: post) = Except.error err
    exact seqForM_append_error _ pre e post err hpre he
  · show seqForM (transpile_single io exo isf imp) db = Except.ok () ↔ _
    exact seqForM_ok_iff _ db
  · intro h1 h0
    unfold schedule
    rw [if_neg h1, if_neg h0]

/-- C1 counterexample: a 3-entry database run with 3 workers under
`--import-only` where the third entry's artifact is missing — its job
fails its assertion — still exits 0, contradicting the claim that in
thread-pool mode the process exits 0 only if every entry's pipeline
succeeded. -/
theorem C1_counterexample :
    mainExit isfC1 rdClang impOk exoOk [] true 3 [eC1a, eC1b, eC1x] = 0
      ∧ transpile_single true exoOk isfC1 impOk eC1x
        = Except.error (Err.assertionError "missing: d/x.c.cbor".data) := by
  constructor
  · decide
  · decide

/-- C1 witness: the same three jobs under `jobs == 1` abort with the
failing job's error, while `jobs == 3` reports success. -/
theorem C1_witness :
    schedule (transpile_single true exoOk isfC1 impOk) 1 [eC1a, eC1b, eC1x]
        = Except.error (Err.assertionError "missing: d/x.c.cbor".data)
      ∧ schedule (transpile_single true exoOk isfC1 impOk) 3 [eC1a, eC1b, eC1x]
        = Except.ok () := by
  have h := C1_corrected true exoOk isfC1 impOk [eC1a, eC1b, eC1x] [eC1a, eC1b] []
    eC1x (Err.assertionError "missing: d/x.c.cbor".data) 3
  exact ⟨h.1 (by decide) (by decide), h.2.2 (by decide) (by decide)⟩

/-- C2 evidence: a non-empty filter over a non-empty database raises
`NameError` — line 96 tests `args.filter in f['file']` with the unbound
name `f` instead of the loop variable `c` — instead of performing the
substring filtering the claim (and the spec's intent) describe. -/
theorem C2_code_bug :
    filterStep "a".data [eC1a] = Except.error Err.nameError := by
  decide

/-- C3 counterexample: a sequential run whose only import invocation
exits 1 fails the whole run with a controlled fatal error carrying the
tool's exit code (exit status 1), contradicting the claim that a
non-zero conversion-tool exit never makes the run fail by itself. -/
theorem C3_counterexample :
    transpile_files isfC3 rdClang impFail exoOk [] true 1 [eC1a]
        = Except.error (Err.die "cmd exited with code 1".data 1)
      ∧ mainExit isfC3 rdClang impFail exoOk [] true 1 [eC1a] = 1 := by
  constructor
  · decide
  · decide

/-- C3 amended: `transpile_single` captures the import invocation's
result triple and never inspects the exit status afterwards, but
`invoke_quietly` has already validated it — plumbum's `run()` raises on
a non-zero exit and `_invoke` converts that into a fatal `die` — so the
job of importing an artifact succeeds exactly when the tool exited 0. -/
theorem C3_amended (rc : Int) (out err d f : List Char)
    (exo : Entry → Except Err (List Char)) :
    (invoke_quietly rc out err = Except.ok (rc, out, err) ↔ rc = 0)
    ∧ (transpile_single true exo (fun _ => true) (fun _ => (rc, out, err))
        ⟨none, none, some d, some f⟩ = Except.ok () ↔ rc = 0) := by
  by_cases h : rc = 0
  · subst h
    constructor
    · simp [invoke_quietly, pbRun]
    · simp [transpile_single, invoke_quietly, pbRun]
  · constructor
    · simp [invoke_quietly, pbRun, h]
    · simp [transpile_single, invoke_quietly, pbRun, h]

/-- C5 evidence: with one clang-built object (`d/ok.o`) and one
non-clang object (`d/bad.o`), the gate fails fatally as claimed, but
the diagnostic joins the paths of all located objects
(`comment_sections`), so the innocent `d/ok.o` — whose comment does
contain `clang` — is listed alongside the offender, contradicting
"only the offending objects" (the computed `non_clang_files` is never
used in the message). -/
theorem C5_code_bug :
    ensure_code_compiled_with_clang isfC5 rdC5 [eC5ok, eC5bad]
        = Except.error (Err.die
            "some ELF objects were not compiled with clang:\nd/ok.o\nd/bad.o".data 1)
      ∧ containsSub (rdC5 "d/ok.o".data) "clang".data = true
      ∧ containsSub
          "some ELF objects were not compiled with clang:\nd/ok.o\nd/bad.o".data
          "d/ok.o".data = true := by
  refine ⟨?_, ?_, ?_⟩
  · decide
  · decide
  · decide
